import Mathlib

/-!
# Pedersen vector commitments with batched verification — verification development

This file embeds the Pedersen vector-commitment and batched-verification
protocol used by the `keyless` repository (package `commitment`, examples
`ExampleSinglePedersen`, `ExampleBatchSameVK`, `ExampleBatchMultiVK`, and the
prover demo in `pkg/zk/prover/pedersen_prover.go`).

## Group model

The protocol works over the bn254 pairing curve.  The relevant groups — the
prime-order subgroups G1 and G2 and the order-r subgroup of GT — are cyclic of
the same prime order r (the bn254 scalar-field order).  We therefore represent
a group element by its discrete logarithm with respect to a fixed generator:
G1, G2 and GT elements are elements of `Fr = ZMod frOrder`, point addition is
field addition, scalar multiplication is field multiplication, and the
bilinear pairing `e(a·g1, b·g2) = (a*b)·gT` becomes multiplication of
exponents.  This representation is an isomorphism of each group, so every
statement proved here about the model is a true statement about the curve
groups.

## What is modelled from the spec

The Pedersen protocol functions themselves (`Setup`, `Commit`,
`ProveKnowledge`, `Verify`, `Fold`, `BatchProve`, `BatchVerifyMultiVk`) live
in the external `gnark-crypto` dependency; the repository sources contain only
their callers.  Those functions are therefore modelled from the spec
(section 4 of spec.md) and carry doc comments saying so.  Following the spec's
data model, the trapdoor is the G2 element stored in the VerifyingKey
("sampled uniformly from the scalar field and lifted to G2", or supplied by
the caller as `sharedTrapdoor` / `WithG2Point`); sharing a trapdoor between
Setup calls means sharing that G2 element, hence — in discrete-log form — the
scalar `trapdoorG2`.  Randomness sampled inside `Setup` is passed as an
explicit parameter, as usual in a shallow embedding.

The helper functions of `pkg/zk/prover/pedersen_prover.go`
(`pedersenCommit`, `randomG1Affine`) are embedded directly from the source.
-/

namespace Keyless

/-- Order of the bn254 scalar field (= order of the G1/G2 subgroups). -/
def frOrder : ℕ :=
  21888242871839275222246405745257275088548364400416034343698204186575808495617

/-- Scalar field of bn254. -/
abbrev Fr := ZMod frOrder

/-- A G1 group element, represented by its discrete logarithm. -/
abbrev G1 := Fr

/-- A G2 group element, represented by its discrete logarithm. -/
abbrev G2 := Fr

/-- A GT (order-r subgroup) element, represented by its discrete logarithm. -/
abbrev GT := Fr

/-- The bilinear pairing `e : G1 × G2 → GT` in discrete-log form:
`e(a·g1, b·g2) = (a*b)·gT`. -/
def pairing (a : G1) (b : G2) : GT := a * b

/-- A raw G1 point handed to `Setup` as a basis element.  `dlog` is its
discrete logarithm when it lies in the prime-order subgroup; `inSubgroup`
records whether the subgroup membership check passes (a point outside the
subgroup has no dlog in our representation, so the flag models that check). -/
structure G1Point where
  dlog : Fr
  inSubgroup : Bool
deriving DecidableEq

/-- Error kinds of the protocol (spec section 7). -/
inductive PedersenError where
  | InvalidBasis
  | DimensionMismatch
  | LengthMismatch
  | InvalidProof
  | IncompatibleVerifyingKeys
deriving DecidableEq

/-- A proving key: the basis (as dlogs) together with the trapdoor scalar it
was bound to at Setup time (in the source, `BasisExpSigma` stores the basis
multiplied by the trapdoor; in dlog form keeping the scalar is equivalent). -/
structure ProvingKey where
  basis : List Fr
  sigma : Fr
deriving DecidableEq

/-- A verifying key: the trapdoor G2 element, in dlog form. -/
structure VerifyingKey where
  trapdoorG2 : G2
deriving DecidableEq

/-- Multi-scalar multiplication `Σ values[i] * basis[i]` in dlog form. -/
def msm (values basis : List Fr) : Fr :=
  (List.zipWith (· * ·) values basis).sum

/-- Whether a basis passes Setup's validation: nonempty, and every point in
the correct prime-order subgroup. -/
def validBasis (b : List G1Point) : Bool :=
  !b.isEmpty && b.all (·.inSubgroup)

/-- Modelled from the spec: `pedersen.Setup` of gnark-crypto (only its callers
are in the repository sources).  Spec 4.1: one ProvingKey per basis, all bound
to a single VerifyingKey whose trapdoor element is the supplied shared
trapdoor or a freshly sampled scalar lifted to G2 (`trapdoor` is that scalar,
passed explicitly); fails with `InvalidBasis` if any basis is empty or has a
point outside the correct subgroup. -/
def Setup (bases : List (List G1Point)) (trapdoor : Fr) :
    Except PedersenError (List ProvingKey × VerifyingKey) :=
  if bases.all validBasis then
    .ok (bases.map (fun b => ⟨b.map (·.dlog), trapdoor⟩), ⟨trapdoor⟩)
  else
    .error .InvalidBasis

/-- Modelled from the spec: `pk.Commit` (spec 4.2).  Requires
`len(values) = len(basis)`, else `DimensionMismatch`; computes
`C = Σ values[i] * basis.points[i]`. -/
def Commit (pk : ProvingKey) (values : List Fr) : Except PedersenError G1 :=
  if values.length = pk.basis.length then
    .ok (msm values pk.basis)
  else
    .error .DimensionMismatch

/-- Modelled from the spec: `pk.ProveKnowledge` (spec 4.2).  Same dimension
precondition; mirrors the commitment computation but bound to the trapdoor
(the proof is the trapdoor multiple of the commitment). -/
def ProveKnowledge (pk : ProvingKey) (values : List Fr) :
    Except PedersenError G1 :=
  if values.length = pk.basis.length then
    .ok (pk.sigma * msm values pk.basis)
  else
    .error .DimensionMismatch

/-- Modelled from the spec: `vk.Verify` (spec 4.3).  Checks the pairing
equation `e(proof, g2) = e(commitment, trapdoorG2)` exactly; `InvalidProof`
when it does not hold. -/
def Verify (vk : VerifyingKey) (commitment : G1) (proof : G1) :
    Except PedersenError Unit :=
  if pairing proof 1 = pairing commitment vk.trapdoorG2 then
    .ok ()
  else
    .error .InvalidProof

/-- Modelled from the spec: `Fold` (spec 4.4).  Horner-style weighting by
ascending powers of `coeff`:
`commitments[0] + coeff*commitments[1] + coeff^2*commitments[2] + ...`. -/
def Fold (commitments : List G1) (coeff : Fr) : G1 :=
  match commitments with
  | [] => 0
  | c :: cs => c + coeff * Fold cs coeff

/-- The element-wise commitments `[Commit(pks[i], valuesList[i]) for all i]`,
propagating the first error. -/
def commitList : List ProvingKey → List (List Fr) →
    Except PedersenError (List G1)
  | [], [] => .ok []
  | pk :: pks', v :: vs' =>
    match Commit pk v, commitList pks' vs' with
    | .ok c, .ok cs => .ok (c :: cs)
    | .error e, _ => .error e
    | .ok _, .error e => .error e
  | _, _ => .error .LengthMismatch

/-- The element-wise knowledge proofs
`[ProveKnowledge(pks[i], valuesList[i]) for all i]`, propagating the first
error. -/
def proveList : List ProvingKey → List (List Fr) →
    Except PedersenError (List G1)
  | [], [] => .ok []
  | pk :: pks', v :: vs' =>
    match ProveKnowledge pk v, proveList pks' vs' with
    | .ok p, .ok ps => .ok (p :: ps)
    | .error e, _ => .error e
    | .ok _, .error e => .error e
  | _, _ => .error .LengthMismatch

/-- Modelled from the spec: `pedersen.BatchProve` (spec 4.4).  Requires
`len(pks) = len(valuesList)` (`LengthMismatch`), each entry of matching
dimension (`DimensionMismatch`); the aggregate proof is the fold of the
individual knowledge proofs by ascending powers of `coeff`. -/
def BatchProve (pks : List ProvingKey) (valuesList : List (List Fr))
    (coeff : Fr) : Except PedersenError G1 :=
  if pks.length = valuesList.length then
    match proveList pks valuesList with
    | .ok proofs => .ok (Fold proofs coeff)
    | .error e => .error e
  else
    .error .LengthMismatch

/-- The left-hand side of the combined pairing equation of
`BatchVerifyMultiVk`: the linear combination, weighted by ascending powers of
`coeff`, of the individual verification equations
`e(proof_i, g2) - e(commitment_i, trapdoorG2_i)` (in GT dlog form). -/
def combinedEquation (vks : List VerifyingKey) (commitments proofs : List G1)
    (coeff : Fr) : GT :=
  Fold (List.zipWith
    (fun vk cp => pairing cp.2 1 - pairing cp.1 vk.trapdoorG2)
    vks (commitments.zip proofs)) coeff

/-- Modelled from the spec: `pedersen.BatchVerifyMultiVk` (spec 4.5).
Precondition `len(vks) = len(commitments) = len(proofs) = n ≥ 1`, else
`LengthMismatch`; all trapdoor G2 elements must be identical, divergent
trapdoors are detected and rejected with `IncompatibleVerifyingKeys`; then the
single combined pairing equation (the `coeff`-weighted linear combination of
the individual verification equations) must hold, else `InvalidProof`. -/
def BatchVerifyMultiVk (vks : List VerifyingKey) (commitments proofs : List G1)
    (coeff : Fr) : Except PedersenError Unit :=
  if vks.length = commitments.length ∧ commitments.length = proofs.length ∧
      1 ≤ vks.length then
    if vks.all (fun vk => vk.trapdoorG2 = (vks.headD ⟨0⟩).trapdoorG2) then
      if combinedEquation vks commitments proofs coeff = 0 then
        .ok ()
      else
        .error .InvalidProof
    else
      .error .IncompatibleVerifyingKeys
  else
    .error .LengthMismatch

/-! ## Embedding of `pkg/zk/prover/pedersen_prover.go` helpers (from source) -/

/-- The zero value `bn254.G1Jac{}` of the source: all Jacobian coordinates
zero, hence Z = 0, which is the point at infinity — the group identity, whose
dlog is 0. -/
def zeroValueG1Jac : G1 := 0

/-- `p.ScalarMultiplication(&q, s)`: scalar multiplication on the curve, in
dlog form. -/
def scalarMultiplication (q : G1) (s : Fr) : G1 := s * q

/-- Embedded from `pedersen_prover.go` (`pedersenCommit`): intended as
`C = m*G + r*H`, but both scalar multiplications are applied to the zero-value
`bn254.G1Jac{}` receiver's base operand, not to `G` and `H`. -/
def pedersenCommit (G H : G1) (m r : Fr) : G1 :=
  let mg := scalarMultiplication zeroValueG1Jac m
  let rh := scalarMultiplication zeroValueG1Jac r
  mg + rh

/-- Embedded from `pedersen_prover.go` (`randomG1Affine`): multiplies the
zero-value `bn254.G1Jac{}` (not the generator) by the freshly drawn scalar,
then converts to affine form. -/
def randomG1Affine (scalar : Fr) : G1 :=
  scalarMultiplication zeroValueG1Jac scalar

end Keyless

namespace Keyless

set_option maxRecDepth 40000

/-! ## Primality of the bn254 scalar-field order

The spec calls `Fr` "the prime-order field in which secret values and
combination coefficients live" (glossary), and tamper detection relies on the
group having prime order.  We certify `Nat.Prime frOrder` with a chain of
Lucas certificates, using a fuel-structural square-and-multiply modular
exponentiation that the kernel can evaluate on 254-bit inputs. -/

/-- Square-and-multiply modular exponentiation, structural on a fuel
argument so that it reduces definitionally. -/
def powModAux : ℕ → ℕ → ℕ → ℕ → ℕ
  | 0, _, _, m => 1 % m
  | fuel + 1, a, e, m =>
    if e = 0 then 1 % m
    else
      let h := powModAux fuel (a * a % m) (e / 2) m
      if e % 2 = 1 then h * (a % m) % m else h

/-- `a ^ e % m` for exponents below `2 ^ 300`. -/
def powMod (a e m : ℕ) : ℕ := powModAux 300 a e m

lemma powModAux_correct :
    ∀ (fuel a e m : ℕ), e < 2 ^ fuel → powModAux fuel a e m = a ^ e % m := by
  intro fuel
  induction fuel with
  | zero =>
    intro a e m he
    have he0 : e = 0 := Nat.lt_one_iff.mp he
    subst he0
    simp [powModAux]
  | succ n ih =>
    intro a e m he
    rw [powModAux]
    by_cases he0 : e = 0
    · subst he0; simp
    · rw [if_neg he0]
      have hhalf : e / 2 < 2 ^ n := by
        have h2 : 2 ^ (n + 1) = 2 ^ n * 2 := by ring
        rw [h2] at he
        exact Nat.div_lt_of_lt_mul (by omega)
      rw [ih (a * a % m) (e / 2) m hhalf]
      have hsq : (a * a % m) ^ (e / 2) % m = (a * a) ^ (e / 2) % m := by
        rw [← Nat.pow_mod]
      have hdecomp : a ^ e = (a * a) ^ (e / 2) * a ^ (e % 2) := by
        have : e = 2 * (e / 2) + e % 2 := (Nat.div_add_mod e 2).symm
        calc a ^ e = a ^ (2 * (e / 2) + e % 2) := by rw [← this]
          _ = (a ^ 2) ^ (e / 2) * a ^ (e % 2) := by rw [pow_add, pow_mul]
          _ = (a * a) ^ (e / 2) * a ^ (e % 2) := by rw [sq]
      by_cases hodd : e % 2 = 1
      · rw [if_pos hodd, hsq, hdecomp, hodd, pow_one]
        conv_rhs => rw [Nat.mul_mod]
      · have heven : e % 2 = 0 := by omega
        rw [if_neg hodd, hsq, hdecomp, heven, pow_zero, mul_one]

lemma powMod_correct (a e m : ℕ) (he : e < 2 ^ 300) : powMod a e m = a ^ e % m :=
  powModAux_correct 300 a e m he

lemma zmod_natCast_pow_eq (p a e : ℕ) :
    ((a : ZMod p)) ^ e = ((a ^ e % p : ℕ) : ZMod p) := by
  rw [← Nat.cast_pow, ZMod.natCast_eq_natCast_iff', Nat.mod_mod_of_dvd _ dvd_rfl]

lemma zmod_pow_eq_one {p a e : ℕ} (hmod : a ^ e % p = 1) :
    ((a : ZMod p)) ^ e = 1 := by
  rw [zmod_natCast_pow_eq, hmod, Nat.cast_one]

lemma zmod_pow_ne_one {p a e : ℕ} (hp : 1 < p) (hmod : a ^ e % p ≠ 1) :
    ((a : ZMod p)) ^ e ≠ 1 := by
  intro h
  rw [zmod_natCast_pow_eq, ← Nat.cast_one, ZMod.natCast_eq_natCast_iff'] at h
  have hlt : a ^ e % p < p := Nat.mod_lt _ (by omega)
  rw [Nat.mod_eq_of_lt hlt, Nat.mod_eq_of_lt hp] at h
  exact hmod h

lemma prime_eq_of_dvd_pow {q r e : ℕ} (hq : q.Prime) (hr : r.Prime)
    (h : q ∣ r ^ e) : q = r :=
  (Nat.prime_dvd_prime_iff_eq hq hr).mp (hq.dvd_of_dvd_pow h)

lemma prime_eq_of_dvd {q r : ℕ} (hq : q.Prime) (hr : r.Prime) (h : q ∣ r) :
    q = r :=
  (Nat.prime_dvd_prime_iff_eq hq hr).mp h

theorem prime_405928799 : Nat.Prime 405928799 := by
  refine lucas_primality 405928799 ((22 : ℕ) : ZMod 405928799) ?_ ?_
  · apply zmod_pow_eq_one
    rw [← powMod_correct 22 (405928799 - 1) 405928799 (by decide)]
    decide
  · intro q hq hdvd
    have hcases : q = 2 ∨ q = 11 ∨ q = 3691 ∨ q = 4999 := by
      rw [show (405928799 - 1 : ℕ) = 2 ^ 1 * (11 ^ 1 * (3691 ^ 1 * (4999 ^ 1))) from rfl] at hdvd
      rcases (Nat.Prime.dvd_mul hq).mp hdvd with h | hdvd
      · exact Or.inl (prime_eq_of_dvd_pow hq (by norm_num) h)
      rcases (Nat.Prime.dvd_mul hq).mp hdvd with h | hdvd
      · exact Or.inr <| Or.inl (prime_eq_of_dvd_pow hq (by norm_num) h)
      rcases (Nat.Prime.dvd_mul hq).mp hdvd with h | hdvd
      · exact Or.inr <| Or.inr <| Or.inl (prime_eq_of_dvd_pow hq (by norm_num) h)
      exact Or.inr <| Or.inr <| Or.inr <| prime_eq_of_dvd_pow hq (by norm_num) hdvd
    rcases hcases with rfl | rfl | rfl | rfl
    all_goals
      apply zmod_pow_ne_one (by norm_num)
      rw [← powMod_correct _ _ _ (by decide)]
      decide

theorem prime_12048837557 : Nat.Prime 12048837557 := by
  refine lucas_primality 12048837557 ((2 : ℕ) : ZMod 12048837557) ?_ ?_
  · apply zmod_pow_eq_one
    rw [← powMod_correct 2 (12048837557 - 1) 12048837557 (by decide)]
    decide
  · intro q hq hdvd
    have hcases : q = 2 ∨ q = 7 ∨ q = 661 ∨ q = 93001 := by
      rw [show (12048837557 - 1 : ℕ) = 2 ^ 2 * (7 ^ 2 * (661 ^ 1 * (93001 ^ 1))) from rfl] at hdvd
      rcases (Nat.Prime.dvd_mul hq).mp hdvd with h | hdvd
      · exact Or.inl (prime_eq_of_dvd_pow hq (by norm_num) h)
      rcases (Nat.Prime.dvd_mul hq).mp hdvd with h | hdvd
      · exact Or.inr <| Or.inl (prime_eq_of_dvd_pow hq (by norm_num) h)
      rcases (Nat.Prime.dvd_mul hq).mp hdvd with h | hdvd
      · exact Or.inr <| Or.inr <| Or.inl (prime_eq_of_dvd_pow hq (by norm_num) h)
      exact Or.inr <| Or.inr <| Or.inr <| prime_eq_of_dvd_pow hq (by norm_num) hdvd
    rcases hcases with rfl | rfl | rfl | rfl
    all_goals
      apply zmod_pow_ne_one (by norm_num)
      rw [← powMod_correct _ _ _ (by decide)]
      decide

theorem prime_5156902474397 : Nat.Prime 5156902474397 := by
  refine lucas_primality 5156902474397 ((2 : ℕ) : ZMod 5156902474397) ?_ ?_
  · apply zmod_pow_eq_one
    rw [← powMod_correct 2 (5156902474397 - 1) 5156902474397 (by decide)]
    decide
  · intro q hq hdvd
    have hcases : q = 2 ∨ q = 107 ∨ q = 12048837557 := by
      rw [show (5156902474397 - 1 : ℕ) = 2 ^ 2 * (107 ^ 1 * (12048837557 ^ 1)) from rfl] at hdvd
      rcases (Nat.Prime.dvd_mul hq).mp hdvd with h | hdvd
      · exact Or.inl (prime_eq_of_dvd_pow hq (by norm_num) h)
      rcases (Nat.Prime.dvd_mul hq).mp hdvd with h | hdvd
      · exact Or.inr <| Or.inl (prime_eq_of_dvd_pow hq (by norm_num) h)
      exact Or.inr <| Or.inr <| prime_eq_of_dvd_pow hq prime_12048837557 hdvd
    rcases hcases with rfl | rfl | rfl
    all_goals
      apply zmod_pow_ne_one (by norm_num)
      rw [← powMod_correct _ _ _ (by decide)]
      decide

theorem prime_1670836401704629 : Nat.Prime 1670836401704629 := by
  refine lucas_primality 1670836401704629 ((2 : ℕ) : ZMod 1670836401704629) ?_ ?_
  · apply zmod_pow_eq_one
    rw [← powMod_correct 2 (1670836401704629 - 1) 1670836401704629 (by decide)]
    decide
  · intro q hq hdvd
    have hcases : q = 2 ∨ q = 3 ∨ q = 5156902474397 := by
      rw [show (1670836401704629 - 1 : ℕ) = 2 ^ 2 * (3 ^ 4 * (5156902474397 ^ 1)) from rfl] at hdvd
      rcases (Nat.Prime.dvd_mul hq).mp hdvd with h | hdvd
      · exact Or.inl (prime_eq_of_dvd_pow hq (by norm_num) h)
      rcases (Nat.Prime.dvd_mul hq).mp hdvd with h | hdvd
      · exact Or.inr <| Or.inl (prime_eq_of_dvd_pow hq (by norm_num) h)
      exact Or.inr <| Or.inr <| prime_eq_of_dvd_pow hq prime_5156902474397 hdvd
    rcases hcases with rfl | rfl | rfl
    all_goals
      apply zmod_pow_ne_one (by norm_num)
      rw [← powMod_correct _ _ _ (by decide)]
      decide

theorem prime_639533339 : Nat.Prime 639533339 := by
  refine lucas_primality 639533339 ((2 : ℕ) : ZMod 639533339) ?_ ?_
  · apply zmod_pow_eq_one
    rw [← powMod_correct 2 (639533339 - 1) 639533339 (by decide)]
    decide
  · intro q hq hdvd
    have hcases : q = 2 ∨ q = 229 ∨ q = 853 ∨ q = 1637 := by
      rw [show (639533339 - 1 : ℕ) = 2 ^ 1 * (229 ^ 1 * (853 ^ 1 * (1637 ^ 1))) from rfl] at hdvd
      rcases (Nat.Prime.dvd_mul hq).mp hdvd with h | hdvd
      · exact Or.inl (prime_eq_of_dvd_pow hq (by norm_num) h)
      rcases (Nat.Prime.dvd_mul hq).mp hdvd with h | hdvd
      · exact Or.inr <| Or.inl (prime_eq_of_dvd_pow hq (by norm_num) h)
      rcases (Nat.Prime.dvd_mul hq).mp hdvd with h | hdvd
      · exact Or.inr <| Or.inr <| Or.inl (prime_eq_of_dvd_pow hq (by norm_num) h)
      exact Or.inr <| Or.inr <| Or.inr <| prime_eq_of_dvd_pow hq (by norm_num) hdvd
    rcases hcases with rfl | rfl | rfl | rfl
    all_goals
      apply zmod_pow_ne_one (by norm_num)
      rw [← powMod_correct _ _ _ (by decide)]
      decide

theorem prime_65865678001877903 : Nat.Prime 65865678001877903 := by
  refine lucas_primality 65865678001877903 ((5 : ℕ) : ZMod 65865678001877903) ?_ ?_
  · apply zmod_pow_eq_one
    rw [← powMod_correct 5 (65865678001877903 - 1) 65865678001877903 (by decide)]
    decide
  · intro q hq hdvd
    have hcases : q = 2 ∨ q = 83 ∨ q = 379 ∨ q = 1637 ∨ q = 639533339 := by
      rw [show (65865678001877903 - 1 : ℕ) = 2 ^ 1 * (83 ^ 1 * (379 ^ 1 * (1637 ^ 1 * (639533339 ^ 1)))) from rfl] at hdvd
      rcases (Nat.Prime.dvd_mul hq).mp hdvd with h | hdvd
      · exact Or.inl (prime_eq_of_dvd_pow hq (by norm_num) h)
      rcases (Nat.Prime.dvd_mul hq).mp hdvd with h | hdvd
      · exact Or.inr <| Or.inl (prime_eq_of_dvd_pow hq (by norm_num) h)
      rcases (Nat.Prime.dvd_mul hq).mp hdvd with h | hdvd
      · exact Or.inr <| Or.inr <| Or.inl (prime_eq_of_dvd_pow hq (by norm_num) h)
      rcases (Nat.Prime.dvd_mul hq).mp hdvd with h | hdvd
      · exact Or.inr <| Or.inr <| Or.inr <| Or.inl (prime_eq_of_dvd_pow hq (by norm_num) h)
      exact Or.inr <| Or.inr <| Or.inr <| Or.inr <| prime_eq_of_dvd_pow hq prime_639533339 hdvd
    rcases hcases with rfl | rfl | rfl | rfl | rfl
    all_goals
      apply zmod_pow_ne_one (by norm_num)
      rw [← powMod_correct _ _ _ (by decide)]
      decide

theorem prime_13818364434197438864469338081 : Nat.Prime 13818364434197438864469338081 := by
  refine lucas_primality 13818364434197438864469338081 ((3 : ℕ) : ZMod 13818364434197438864469338081) ?_ ?_
  · apply zmod_pow_eq_one
    rw [← powMod_correct 3 (13818364434197438864469338081 - 1) 13818364434197438864469338081 (by decide)]
    decide
  · intro q hq hdvd
    have hcases : q = 2 ∨ q = 5 ∨ q = 823 ∨ q = 1593227 ∨ q = 65865678001877903 := by
      rw [show (13818364434197438864469338081 - 1 : ℕ) = 2 ^ 5 * (5 ^ 1 * (823 ^ 1 * (1593227 ^ 1 * (65865678001877903 ^ 1)))) from rfl] at hdvd
      rcases (Nat.Prime.dvd_mul hq).mp hdvd with h | hdvd
      · exact Or.inl (prime_eq_of_dvd_pow hq (by norm_num) h)
      rcases (Nat.Prime.dvd_mul hq).mp hdvd with h | hdvd
      · exact Or.inr <| Or.inl (prime_eq_of_dvd_pow hq (by norm_num) h)
      rcases (Nat.Prime.dvd_mul hq).mp hdvd with h | hdvd
      · exact Or.inr <| Or.inr <| Or.inl (prime_eq_of_dvd_pow hq (by norm_num) h)
      rcases (Nat.Prime.dvd_mul hq).mp hdvd with h | hdvd
      · exact Or.inr <| Or.inr <| Or.inr <| Or.inl (prime_eq_of_dvd_pow hq (by norm_num) h)
      exact Or.inr <| Or.inr <| Or.inr <| Or.inr <| prime_eq_of_dvd_pow hq prime_65865678001877903 hdvd
    rcases hcases with rfl | rfl | rfl | rfl | rfl
    all_goals
      apply zmod_pow_ne_one (by norm_num)
      rw [← powMod_correct _ _ _ (by decide)]
      decide

theorem prime_21888242871839275222246405745257275088548364400416034343698204186575808495617 : Nat.Prime 21888242871839275222246405745257275088548364400416034343698204186575808495617 := by
  refine lucas_primality 21888242871839275222246405745257275088548364400416034343698204186575808495617 ((5 : ℕ) : ZMod 21888242871839275222246405745257275088548364400416034343698204186575808495617) ?_ ?_
  · apply zmod_pow_eq_one
    rw [← powMod_correct 5 (21888242871839275222246405745257275088548364400416034343698204186575808495617 - 1) 21888242871839275222246405745257275088548364400416034343698204186575808495617 (by decide)]
    decide
  · intro q hq hdvd
    have hcases : q = 2 ∨ q = 3 ∨ q = 13 ∨ q = 29 ∨ q = 983 ∨ q = 11003 ∨ q = 237073 ∨ q = 405928799 ∨ q = 1670836401704629 ∨ q = 13818364434197438864469338081 := by
      rw [show (21888242871839275222246405745257275088548364400416034343698204186575808495617 - 1 : ℕ) = 2 ^ 28 * (3 ^ 2 * (13 ^ 1 * (29 ^ 1 * (983 ^ 1 * (11003 ^ 1 * (237073 ^ 1 * (405928799 ^ 1 * (1670836401704629 ^ 1 * (13818364434197438864469338081 ^ 1))))))))) from rfl] at hdvd
      rcases (Nat.Prime.dvd_mul hq).mp hdvd with h | hdvd
      · exact Or.inl (prime_eq_of_dvd_pow hq (by norm_num) h)
      rcases (Nat.Prime.dvd_mul hq).mp hdvd with h | hdvd
      · exact Or.inr <| Or.inl (prime_eq_of_dvd_pow hq (by norm_num) h)
      rcases (Nat.Prime.dvd_mul hq).mp hdvd with h | hdvd
      · exact Or.inr <| Or.inr <| Or.inl (prime_eq_of_dvd_pow hq (by norm_num) h)
      rcases (Nat.Prime.dvd_mul hq).mp hdvd with h | hdvd
      · exact Or.inr <| Or.inr <| Or.inr <| Or.inl (prime_eq_of_dvd_pow hq (by norm_num) h)
      rcases (Nat.Prime.dvd_mul hq).mp hdvd with h | hdvd
      · exact Or.inr <| Or.inr <| Or.inr <| Or.inr <| Or.inl (prime_eq_of_dvd_pow hq (by norm_num) h)
      rcases (Nat.Prime.dvd_mul hq).mp hdvd with h | hdvd
      · exact Or.inr <| Or.inr <| Or.inr <| Or.inr <| Or.inr <| Or.inl (prime_eq_of_dvd_pow hq (by norm_num) h)
      rcases (Nat.Prime.dvd_mul hq).mp hdvd with h | hdvd
      · exact Or.inr <| Or.inr <| Or.inr <| Or.inr <| Or.inr <| Or.inr <| Or.inl (prime_eq_of_dvd_pow hq (by norm_num) h)
      rcases (Nat.Prime.dvd_mul hq).mp hdvd with h | hdvd
      · exact Or.inr <| Or.inr <| Or.inr <| Or.inr <| Or.inr <| Or.inr <| Or.inr <| Or.inl (prime_eq_of_dvd_pow hq prime_405928799 h)
      rcases (Nat.Prime.dvd_mul hq).mp hdvd with h | hdvd
      · exact Or.inr <| Or.inr <| Or.inr <| Or.inr <| Or.inr <| Or.inr <| Or.inr <| Or.inr <| Or.inl (prime_eq_of_dvd_pow hq prime_1670836401704629 h)
      exact Or.inr <| Or.inr <| Or.inr <| Or.inr <| Or.inr <| Or.inr <| Or.inr <| Or.inr <| Or.inr <| prime_eq_of_dvd_pow hq prime_13818364434197438864469338081 hdvd
    rcases hcases with rfl | rfl | rfl | rfl | rfl | rfl | rfl | rfl | rfl | rfl
    all_goals
      apply zmod_pow_ne_one (by norm_num)
      rw [← powMod_correct _ _ _ (by decide)]
      decide


/-- The bn254 scalar-field order is prime, so `Fr` really is the "prime-order
field" of the spec's glossary. -/
theorem frOrder_prime : Nat.Prime frOrder := by
  show Nat.Prime 21888242871839275222246405745257275088548364400416034343698204186575808495617
  exact prime_21888242871839275222246405745257275088548364400416034343698204186575808495617

instance : Fact (Nat.Prime frOrder) := ⟨frOrder_prime⟩

/-! ## General lemmas about the model -/

lemma verify_ok_iff (vk : VerifyingKey) (c p : G1) :
    Verify vk c p = .ok () ↔ p = c * vk.trapdoorG2 := by
  unfold Verify pairing
  rw [mul_one]
  split <;> rename_i h
  · exact iff_of_true rfl h
  · exact iff_of_false (fun habs => Except.noConfusion habs) h

lemma Setup_ok_inv {bases : List (List G1Point)} {t : Fr}
    {pks : List ProvingKey} {vk : VerifyingKey}
    (hs : Setup bases t = .ok (pks, vk)) :
    vk.trapdoorG2 = t ∧ ∀ pk ∈ pks, pk.sigma = t := by
  unfold Setup at hs
  split at hs
  · rw [Except.ok.injEq, Prod.mk.injEq] at hs
    obtain ⟨hpks, hvk⟩ := hs
    refine ⟨by rw [← hvk], ?_⟩
    intro pk hpk
    rw [← hpks] at hpk
    obtain ⟨b, _, rfl⟩ := List.mem_map.mp hpk
    rfl
  · exact Except.noConfusion hs

lemma msm_eq_sum :
    ∀ (a b : List Fr), msm a b =
      ∑ i ∈ Finset.range (min a.length b.length), a.getD i 0 * b.getD i 0 := by
  intro a
  induction a with
  | nil => intro b; simp [msm]
  | cons x xs ih =>
    intro b
    cases b with
    | nil => simp [msm]
    | cons y ys =>
      have hmin : min (x :: xs).length (y :: ys).length =
          min xs.length ys.length + 1 := by
        simp [List.length_cons, Nat.succ_min_succ]
      rw [hmin, Finset.sum_range_succ']
      simp only [List.getD_cons_succ, List.getD_cons_zero]
      rw [← ih ys]
      simp [msm]
      ring

/-! ## Claims -/

/-- C1: for every proving key `pk` produced by `Setup` together with verifying
key `vk`, and every value vector of length equal to the dimension of `pk`'s
basis, `Verify(vk, Commit(pk, values), ProveKnowledge(pk, values))` succeeds. -/
theorem setup_commit_prove_verify_roundtrip (bases : List (List G1Point))
    (t : Fr) (pks : List ProvingKey) (vk : VerifyingKey)
    (hs : Setup bases t = .ok (pks, vk)) (pk : ProvingKey) (hpk : pk ∈ pks)
    (values : List Fr) (hlen : values.length = pk.basis.length) :
    ∃ c p, Commit pk values = .ok c ∧ ProveKnowledge pk values = .ok p ∧
      Verify vk c p = .ok () := by
  obtain ⟨hvk, hsig⟩ := Setup_ok_inv hs
  refine ⟨msm values pk.basis, pk.sigma * msm values pk.basis, ?_, ?_, ?_⟩
  · rw [Commit, if_pos hlen]
  · rw [ProveKnowledge, if_pos hlen]
  · rw [verify_ok_iff, hsig pk hpk, hvk]
    ring

/-- Closed witness for C1: a Setup over a two-generator basis, with the value
vector `[123, 456]` of `ExampleSinglePedersen`. -/
theorem setup_commit_prove_verify_roundtrip_witness :
    Setup [[⟨1, true⟩, ⟨1, true⟩]] 3 = .ok ([⟨[1, 1], 3⟩], ⟨3⟩) ∧
    (⟨[1, 1], 3⟩ : ProvingKey) ∈ [(⟨[1, 1], 3⟩ : ProvingKey)] ∧
    ([123, 456] : List Fr).length = ([1, 1] : List Fr).length ∧
    ∃ c p, Commit ⟨[1, 1], 3⟩ [123, 456] = .ok c ∧
      ProveKnowledge ⟨[1, 1], 3⟩ [123, 456] = .ok p ∧
      Verify ⟨3⟩ c p = .ok () :=
  ⟨rfl, List.mem_singleton.mpr rfl, rfl,
    setup_commit_prove_verify_roundtrip [[⟨1, true⟩, ⟨1, true⟩]] 3 _ _ rfl _
      (List.mem_singleton.mpr rfl) [123, 456] rfl⟩

/-- C2: `Commit(pk, values)` equals the multi-scalar multiplication
`Σ values[i] * basis.points[i]`, and `Commit` is deterministic: equal inputs
give equal commitments. -/
theorem commit_msm_deterministic (pk : ProvingKey) (values : List Fr)
    (hlen : values.length = pk.basis.length) :
    Commit pk values =
      .ok (∑ i ∈ Finset.range values.length,
        values.getD i 0 * pk.basis.getD i 0) ∧
    ∀ pk2 values2, pk2 = pk → values2 = values →
      Commit pk2 values2 = Commit pk values := by
  refine ⟨?_, ?_⟩
  · rw [Commit, if_pos hlen, msm_eq_sum, hlen, min_self]
  · rintro pk2 values2 rfl rfl
    rfl

/-- Closed witness for C2 at the values `[123, 456]` of
`ExampleSinglePedersen`. -/
theorem commit_msm_deterministic_witness :
    ([123, 456] : List Fr).length = (ProvingKey.mk [1, 1] 3).basis.length ∧
    (Commit ⟨[1, 1], 3⟩ [123, 456] =
        .ok (∑ i ∈ Finset.range ([123, 456] : List Fr).length,
          ([123, 456] : List Fr).getD i 0 *
            (ProvingKey.mk [1, 1] 3).basis.getD i 0) ∧
      ∀ pk2 values2, pk2 = ProvingKey.mk [1, 1] 3 → values2 = [123, 456] →
        Commit pk2 values2 = Commit ⟨[1, 1], 3⟩ [123, 456]) :=
  ⟨rfl, commit_msm_deterministic ⟨[1, 1], 3⟩ [123, 456] rfl⟩

lemma verify_error_iff (vk : VerifyingKey) (c p : G1) :
    Verify vk c p = .error .InvalidProof ↔ p ≠ c * vk.trapdoorG2 := by
  unfold Verify pairing
  rw [mul_one]
  split <;> rename_i h
  · exact iff_of_false (fun habs => Except.noConfusion habs) (fun hne => hne h)
  · exact iff_of_true rfl h

lemma fold_map_mul (t coeff : Fr) :
    ∀ cs : List G1, Fold (cs.map (fun c => t * c)) coeff = t * Fold cs coeff := by
  intro cs
  induction cs with
  | nil => simp [Fold]
  | cons c cs' ih =>
    simp only [List.map_cons, Fold, ih]
    ring

lemma proveList_of_commitList (t : Fr) :
    ∀ (pks : List ProvingKey) (vls : List (List Fr)) (cs : List G1),
      (∀ pk ∈ pks, pk.sigma = t) →
      commitList pks vls = .ok cs →
      proveList pks vls = .ok (cs.map (fun c => t * c)) := by
  intro pks
  induction pks with
  | nil =>
    intro vls cs _ hc
    cases vls with
    | nil =>
      rw [commitList] at hc
      injection hc with hc
      rw [proveList, ← hc]
      rfl
    | cons v vs => exact Except.noConfusion hc
  | cons pk pks' ih =>
    intro vls cs hsig hc
    cases vls with
    | nil => exact Except.noConfusion hc
    | cons v vs =>
      rw [commitList] at hc
      cases hcom : Commit pk v with
      | error e => rw [hcom] at hc; exact Except.noConfusion hc
      | ok c =>
        cases hrest : commitList pks' vs with
        | error e => rw [hcom, hrest] at hc; exact Except.noConfusion hc
        | ok cs' =>
          rw [hcom, hrest] at hc
          injection hc with hc
          subst hc
          have hp : ProveKnowledge pk v = .ok (t * c) := by
            rw [Commit] at hcom
            by_cases hl : v.length = pk.basis.length
            · rw [if_pos hl] at hcom
              injection hcom with hcom
              rw [ProveKnowledge, if_pos hl, hcom,
                hsig pk (List.mem_cons_self pk pks')]
            · rw [if_neg hl] at hcom
              exact Except.noConfusion hcom
          rw [proveList, hp,
            ih vs cs' (fun q hq => hsig q (List.mem_cons_of_mem pk hq)) hrest]
          rfl

/-- C3: Fold/BatchProve commutativity — for proving keys all bound to one
verifying key, matching value lists and any combination coefficient,
`Verify(vk, Fold([Commit(pks[i], valuesList[i]) for all i], coeff),
BatchProve(pks, valuesList, coeff))` succeeds, where `Fold` weights the
commitments by ascending powers of `coeff`. -/
theorem batchprove_fold_commute (pks : List ProvingKey)
    (valuesList : List (List Fr)) (coeff : Fr) (vk : VerifyingKey)
    (hsig : ∀ pk ∈ pks, pk.sigma = vk.trapdoorG2) (commitments : List G1)
    (hc : commitList pks valuesList = .ok commitments) (bp : G1)
    (hbp : BatchProve pks valuesList coeff = .ok bp) :
    Verify vk (Fold commitments coeff) bp = .ok () := by
  rw [BatchProve] at hbp
  by_cases hlen : pks.length = valuesList.length
  · rw [if_pos hlen,
      proveList_of_commitList vk.trapdoorG2 pks valuesList commitments hsig hc]
      at hbp
    injection hbp with hbp
    subst hbp
    rw [verify_ok_iff, fold_map_mul]
    ring
  · rw [if_neg hlen] at hbp
    exact Except.noConfusion hbp

/-- Closed witness for C3: two proving keys bound to one verifying key,
values `[[10, 20], [30, 40]]`, coefficient 42. -/
theorem batchprove_fold_commute_witness :
    (∀ pk ∈ [(⟨[1, 1], 3⟩ : ProvingKey), ⟨[1, 1], 3⟩],
      pk.sigma = (VerifyingKey.mk 3).trapdoorG2) ∧
    commitList [⟨[1, 1], 3⟩, ⟨[1, 1], 3⟩] [[10, 20], [30, 40]] =
      .ok [30, 70] ∧
    BatchProve [⟨[1, 1], 3⟩, ⟨[1, 1], 3⟩] [[10, 20], [30, 40]] 42 =
      .ok 8910 ∧
    Verify ⟨3⟩ (Fold [30, 70] 42) 8910 = .ok () :=
  ⟨by decide, rfl, rfl,
    batchprove_fold_commute [⟨[1, 1], 3⟩, ⟨[1, 1], 3⟩] [[10, 20], [30, 40]]
      42 ⟨3⟩ (by decide) [30, 70] rfl 8910 rfl⟩

/-- C4: the `ExampleBatchMultiVK` scenario — bases `[g, 2g]` and `[4g, 8g]`
under two Setups sharing the trapdoor G2 element `g2` (dlog 1), values
`[11, 22]` and `[33, 44]`, coefficient 7: `BatchVerifyMultiVk` succeeds on
the honest triples and fails after the second proof is scalar-multiplied by
9999. -/
theorem batch_multivk_scenario :
    Setup [[⟨1, true⟩, ⟨2, true⟩]] 1 = .ok ([⟨[1, 2], 1⟩], ⟨1⟩) ∧
    Setup [[⟨4, true⟩, ⟨8, true⟩]] 1 = .ok ([⟨[4, 8], 1⟩], ⟨1⟩) ∧
    Commit ⟨[1, 2], 1⟩ [11, 22] = .ok 55 ∧
    ProveKnowledge ⟨[1, 2], 1⟩ [11, 22] = .ok 55 ∧
    Commit ⟨[4, 8], 1⟩ [33, 44] = .ok 484 ∧
    ProveKnowledge ⟨[4, 8], 1⟩ [33, 44] = .ok 484 ∧
    BatchVerifyMultiVk [⟨1⟩, ⟨1⟩] [55, 484] [55, 484] 7 = .ok () ∧
    BatchVerifyMultiVk [⟨1⟩, ⟨1⟩] [55, 484] [55, 9999 * 484] 7 =
      .error .InvalidProof :=
  ⟨rfl, rfl, rfl, rfl, rfl, rfl, rfl, rfl⟩

/-- C5 as stated fails on the code: the pair (identity commitment, identity
proof), produced honestly by committing the all-zero vector, is accepted by
`Verify`, and scaling that proof by the nonzero scalar 2 ≠ 1 leaves it
accepted. -/
theorem tamper_detection_counterexample :
    Commit ⟨[1, 1], 3⟩ [0, 0] = .ok 0 ∧
    ProveKnowledge ⟨[1, 1], 3⟩ [0, 0] = .ok 0 ∧
    Verify ⟨3⟩ 0 0 = .ok () ∧
    (2 : Fr) ≠ 0 ∧ (2 : Fr) ≠ 1 ∧
    Verify ⟨3⟩ 0 (2 * 0) = .ok () :=
  ⟨rfl, rfl, rfl, by decide, by decide, rfl⟩

/-- C5 amended: for every pair accepted by `Verify` whose proof is not the
identity element, scaling the proof by any scalar `r ≠ 1` makes verification
fail, and likewise scaling the commitment by `r ≠ 1`. -/
theorem tamper_detection_amended (vk : VerifyingKey) (c p r : Fr)
    (hacc : Verify vk c p = .ok ()) (hp : p ≠ 0) (hr1 : r ≠ 1) :
    Verify vk c (r * p) = .error .InvalidProof ∧
    Verify vk (r * c) p = .error .InvalidProof := by
  rw [verify_ok_iff] at hacc
  have ht : c * vk.trapdoorG2 ≠ 0 := by rw [← hacc]; exact hp
  constructor
  · rw [verify_error_iff, hacc]
    intro habs
    have hz : (r - 1) * (c * vk.trapdoorG2) = 0 := by
      rw [sub_mul, one_mul, habs, sub_self]
    rcases mul_eq_zero.mp hz with h1 | h2
    · exact hr1 (sub_eq_zero.mp h1)
    · exact ht h2
  · rw [verify_error_iff]
    intro habs
    have hcomb : c * vk.trapdoorG2 = r * (c * vk.trapdoorG2) := by
      calc c * vk.trapdoorG2 = p := hacc.symm
        _ = r * c * vk.trapdoorG2 := habs
        _ = r * (c * vk.trapdoorG2) := by ring
    have hz : (1 - r) * (c * vk.trapdoorG2) = 0 := by
      rw [sub_mul, one_mul, ← hcomb, sub_self]
    rcases mul_eq_zero.mp hz with h1 | h2
    · exact hr1 (sub_eq_zero.mp h1).symm
    · exact ht h2

/-- Closed witness for the amended C5, at the genuine `[123, 456]` pair of
`ExampleSinglePedersen` and scaling factor 2. -/
theorem tamper_detection_amended_witness :
    Verify ⟨3⟩ 579 1737 = .ok () ∧ (1737 : Fr) ≠ 0 ∧ (2 : Fr) ≠ 1 ∧
    Commit ⟨[1, 1], 3⟩ [123, 456] = .ok 579 ∧
    ProveKnowledge ⟨[1, 1], 3⟩ [123, 456] = .ok 1737 ∧
    (Verify ⟨3⟩ 579 (2 * 1737) = .error .InvalidProof ∧
      Verify ⟨3⟩ (2 * 579) 1737 = .error .InvalidProof) :=
  ⟨rfl, by decide, by decide, rfl, rfl,
    tamper_detection_amended ⟨3⟩ 579 1737 2 rfl (by decide) (by decide)⟩

/-- C6: for verifying keys with divergent trapdoor G2 elements and inputs of
matching arity, `BatchVerifyMultiVk` rejects with
`IncompatibleVerifyingKeys` — never a silent success. -/
theorem batchverify_rejects_divergent_trapdoors (vks : List VerifyingKey)
    (commitments proofs : List G1) (coeff : Fr) (vk1 vk2 : VerifyingKey)
    (h1 : vk1 ∈ vks) (h2 : vk2 ∈ vks)
    (hne : vk1.trapdoorG2 ≠ vk2.trapdoorG2)
    (hc : vks.length = commitments.length)
    (hp : commitments.length = proofs.length) :
    BatchVerifyMultiVk vks commitments proofs coeff =
      .error .IncompatibleVerifyingKeys := by
  have hn : 1 ≤ vks.length := List.length_pos.mpr (List.ne_nil_of_mem h1)
  have hdet : ¬ (vks.all
      (fun vk => vk.trapdoorG2 = (vks.headD ⟨0⟩).trapdoorG2) = true) := by
    intro hall
    rw [List.all_eq_true] at hall
    have e1 := hall vk1 h1
    have e2 := hall vk2 h2
    rw [decide_eq_true_eq] at e1 e2
    exact hne (e1.trans e2.symm)
  rw [BatchVerifyMultiVk, if_pos ⟨hc, hp, hn⟩, if_neg hdet]

/-- Closed witness for C6: two verifying keys with trapdoors 1 and 2. -/
theorem batchverify_rejects_divergent_trapdoors_witness :
    ((⟨1⟩ : VerifyingKey) ∈ [(⟨1⟩ : VerifyingKey), ⟨2⟩]) ∧
    ((⟨2⟩ : VerifyingKey) ∈ [(⟨1⟩ : VerifyingKey), ⟨2⟩]) ∧
    (VerifyingKey.mk 1).trapdoorG2 ≠ (VerifyingKey.mk 2).trapdoorG2 ∧
    [(⟨1⟩ : VerifyingKey), ⟨2⟩].length = ([0, 0] : List G1).length ∧
    ([0, 0] : List G1).length = ([0, 0] : List G1).length ∧
    BatchVerifyMultiVk [⟨1⟩, ⟨2⟩] [0, 0] [0, 0] 7 =
      .error .IncompatibleVerifyingKeys :=
  ⟨by decide, by decide, by decide, rfl, rfl,
    batchverify_rejects_divergent_trapdoors [⟨1⟩, ⟨2⟩] [0, 0] [0, 0] 7 ⟨1⟩ ⟨2⟩
      (by decide) (by decide) (by decide) rfl rfl⟩

/-- C7 fails on the code: with the `ExampleSinglePedersen` basis, which holds
the generator at both indices, the distinct vectors `[0, 1]` and `[1, 0]`
share the commitment `g`. -/
theorem commit_binding_counterexample :
    Commit ⟨[1, 1], 3⟩ [0, 1] = .ok 1 ∧ Commit ⟨[1, 1], 3⟩ [1, 0] = .ok 1 ∧
    ([0, 1] : List Fr) ≠ [1, 0] :=
  ⟨rfl, rfl, by decide⟩

/-- C7 amended: for the `ExampleSinglePedersen` proving key (generator at
both basis indices), two 2-dimensional vectors share a commitment exactly
when their coordinate sums agree — the commitment determines only the sum,
not the vector. -/
theorem commit_binding_amended (sigma a b c d : Fr) :
    Commit ⟨[1, 1], sigma⟩ [a, b] = Commit ⟨[1, 1], sigma⟩ [c, d] ↔
      a + b = c + d := by
  unfold Commit msm
  simp

/-- C8: `Setup` fails with `InvalidBasis` whenever some basis is empty or
contains a point outside the correct prime-order subgroup. -/
theorem setup_invalid_basis (bases : List (List G1Point)) (t : Fr)
    (hbad : ∃ b ∈ bases, b = [] ∨ ∃ pt ∈ b, pt.inSubgroup = false) :
    Setup bases t = .error .InvalidBasis := by
  have hfalse : ¬ (bases.all validBasis = true) := by
    intro hall
    rw [List.all_eq_true] at hall
    obtain ⟨b, hb, hcase⟩ := hbad
    have hv := hall b hb
    unfold validBasis at hv
    rw [Bool.and_eq_true] at hv
    obtain ⟨hne, hsub⟩ := hv
    rcases hcase with rfl | ⟨pt, hpt, hf⟩
    · simp at hne
    · rw [List.all_eq_true] at hsub
      have hpt' := hsub pt hpt
      rw [hf] at hpt'
      exact Bool.false_ne_true hpt'
  rw [Setup, if_neg hfalse]

/-- Closed witness for C8: one empty basis and one basis with a
non-subgroup point. -/
theorem setup_invalid_basis_witness :
    (∃ b ∈ ([[], [⟨1, false⟩]] : List (List G1Point)),
      b = [] ∨ ∃ pt ∈ b, pt.inSubgroup = false) ∧
    Setup [[], [⟨1, false⟩]] 0 = .error .InvalidBasis :=
  ⟨⟨[], by decide, Or.inl rfl⟩,
    setup_invalid_basis [[], [⟨1, false⟩]] 0 ⟨[], by decide, Or.inl rfl⟩⟩

/-- C9: `Commit` and `ProveKnowledge` called with a value vector whose length
differs from the basis dimension fail with `DimensionMismatch` and produce no
commitment or proof value. -/
theorem commit_prove_dimension_mismatch (pk : ProvingKey) (values : List Fr)
    (hlen : values.length ≠ pk.basis.length) :
    Commit pk values = .error .DimensionMismatch ∧
    ProveKnowledge pk values = .error .DimensionMismatch :=
  ⟨by rw [Commit, if_neg hlen], by rw [ProveKnowledge, if_neg hlen]⟩

/-- Closed witness for C9: a 3-vector against a 2-dimensional basis. -/
theorem commit_prove_dimension_mismatch_witness :
    ([1, 2, 3] : List Fr).length ≠ (ProvingKey.mk [1, 1] 3).basis.length ∧
    (Commit ⟨[1, 1], 3⟩ [1, 2, 3] = .error .DimensionMismatch ∧
      ProveKnowledge ⟨[1, 1], 3⟩ [1, 2, 3] = .error .DimensionMismatch) :=
  ⟨by decide, commit_prove_dimension_mismatch ⟨[1, 1], 3⟩ [1, 2, 3] (by decide)⟩

/-- C10: the prover demo's `pedersenCommit(G, H, m, r)` scalar-multiplies the
zero-value `bn254.G1Jac` instead of `G` and `H`, so it returns the identity
point for every input; likewise `randomG1Affine` always returns the identity,
independently of the drawn scalar. -/
theorem pedersenCommit_always_identity (G H G' H' : G1) (m r m' r' s s' : Fr) :
    pedersenCommit G H m r = 0 ∧
    pedersenCommit G H m r = pedersenCommit G' H' m' r' ∧
    randomG1Affine s = 0 ∧
    randomG1Affine s = randomG1Affine s' := by
  refine ⟨?_, ?_, ?_, ?_⟩ <;>
    simp [pedersenCommit, randomG1Affine, scalarMultiplication, zeroValueG1Jac]

end Keyless
